import Mathlib

/-
Verification of the `either` crate (rayon-rs/either): a shallow embedding of
the two-variant sum type `Either<L, R>` from src/lib.rs, its borsh binary
codec from src/borsh_impl.rs, and the iterator adapters from src/iterator.rs,
together with proofs of the documented properties.

Rust iterators are modelled as lists: the iterator state is the list of items
not yet produced, and `next` removes the head.  Machine bytes are modelled as
`Nat` values (the byte written for the tag is 0 or 1, well inside range).
Fallible decoding returns `Except String`.
-/

namespace EitherSpec

/-- The sum type from src/lib.rs lines 18-23:
`enum Either<L, R> { Left(L), Right(R) }`. -/
inductive Either (L R : Type) where
  | Left : L → Either L R
  | Right : R → Either L R
deriving DecidableEq, Repr

open Either

variable {L R M S T α β : Type}

/-- Either::is_left (src/lib.rs lines 101-106): true exactly on Left. -/
def Either.is_left : Either L R → Bool
  | Left _ => true
  | Right _ => false

/-- Either::is_right (src/lib.rs lines 121-123): defined in the source as
the negation of is_left. -/
def Either.is_right (x : Either L R) : Bool :=
  !x.is_left

/-- Either::left (src/lib.rs lines 138-143): extract the Left payload. -/
def Either.left : Either L R → Option L
  | Left l => some l
  | Right _ => none

/-- Either::right (src/lib.rs lines 158-163): extract the Right payload. -/
def Either.right : Either L R → Option R
  | Left _ => none
  | Right r => some r

/-- Either::flip (src/lib.rs lines 223-228): swap the two sides. -/
def Either.flip : Either L R → Either R L
  | Left l => Right l
  | Right r => Left r

/-- Either::map_left (src/lib.rs lines 243-249): apply f on the Left variant. -/
def Either.map_left (x : Either L R) (f : L → M) : Either M R :=
  match x with
  | Left l => Left (f l)
  | Right r => Right r

/-- Either::map_right (src/lib.rs lines 264-270): apply f on the Right variant. -/
def Either.map_right (x : Either L R) (f : R → S) : Either L S :=
  match x with
  | Left l => Left l
  | Right r => Right (f r)

/-- Either::either (src/lib.rs lines 290-297): the eliminator, applying one of
two functions depending on the variant. -/
def Either.either (x : Either L R) (f : L → T) (g : R → T) : T :=
  match x with
  | Left l => f l
  | Right r => g r

/-- The Rust Result type: `Ok(T)` or `Err(E)`, as used by the conversions in
src/lib.rs lines 301-318. -/
inductive Result (T E : Type) where
  | Ok : T → Result T E
  | Err : E → Result T E
deriving DecidableEq, Repr

/-- The impl From of Result for Either (src/lib.rs lines 301-308):
`Err(e) => Left(e)`, `Ok(o) => Right(o)`. -/
def Either.from_result : Result R L → Either L R
  | Result.Err e => Left e
  | Result.Ok o => Right o

/-- The impl Into of Result for Either (src/lib.rs lines 311-318):
`Left(l) => Err(l)`, `Right(r) => Ok(r)`. -/
def Either.into_result : Either L R → Result R L
  | Left l => Result.Err l
  | Right r => Result.Ok r

/-- The comparison produced by the derive of PartialOrd and Ord on Either
(src/lib.rs line 17).  A Rust derived Ord on an enum compares the variant
discriminants first, in declaration order (Left before Right), and compares
the payloads with the payload ordering only when the variants agree. -/
def Either.cmp (cmpL : L → L → Ordering) (cmpR : R → R → Ordering) :
    Either L R → Either L R → Ordering
  | Left a, Left b => cmpL a b
  | Left _, Right _ => Ordering.lt
  | Right _, Left _ => Ordering.gt
  | Right a, Right b => cmpR a b

/-- The strict less-than relation induced by the derived Ord. -/
def Either.lt (cmpL : L → L → Ordering) (cmpR : R → R → Ordering)
    (x y : Either L R) : Bool :=
  Either.cmp cmpL cmpR x y == Ordering.lt

/-
Binary codec (src/borsh_impl.rs).  A serializer for a payload type is a
function to a byte list; a deserializer consumes a prefix of a byte list and
returns the decoded value plus the remaining bytes, or an error.
-/

/-- Modelled from the spec: the borsh codec for bool used for the tag byte
(the borsh crate is an external dependency, not part of src/).  The spec fixes
the encoding to a one-byte tag, 0 for false/Left and 1 for true/Right;
borsh serializes a bool as that single byte. -/
def serialize_bool (b : Bool) : List Nat :=
  [if b then 1 else 0]

/-- Modelled from the spec: the borsh deserializer for bool (external
dependency, not part of src/).  It reads one byte and accepts only the two
valid encodings, 0 for false and 1 for true; any other byte is rejected with
an error, as is an empty input. -/
def deserialize_bool : List Nat → Except String (Bool × List Nat)
  | [] => Except.error "unexpected end of input"
  | b :: rest =>
    if b = 0 then Except.ok (false, rest)
    else if b = 1 then Except.ok (true, rest)
    else Except.error "Invalid bool representation"

/-- BorshSerialize for Either (src/borsh_impl.rs lines 4-25): Left writes the
bool false then the payload, Right writes the bool true then the payload. -/
def Either.serialize (serL : L → List Nat) (serR : R → List Nat) :
    Either L R → List Nat
  | Left l => serialize_bool false ++ serL l
  | Right r => serialize_bool true ++ serR r

/-- BorshDeserialize for Either (src/borsh_impl.rs lines 26-41): read the bool
tag first, then dispatch to the matching payload deserializer. -/
def Either.deserialize_reader (desL : List Nat → Except String (L × List Nat))
    (desR : List Nat → Except String (R × List Nat)) (input : List Nat) :
    Except String (Either L R × List Nat) :=
  match deserialize_bool input with
  | Except.error e => Except.error e
  | Except.ok (tag, rest) =>
    if tag then
      match desR rest with
      | Except.error e => Except.error e
      | Except.ok (r, rest2) => Except.ok (Right r, rest2)
    else
      match desL rest with
      | Except.error e => Except.error e
      | Except.ok (l, rest2) => Except.ok (Left l, rest2)

/-- A concrete payload codec for the witnesses: a Nat is encoded as itself in
one byte position. -/
def ser_nat (n : Nat) : List Nat :=
  [n]

/-- The matching payload decoder for ser_nat. -/
def des_nat : List Nat → Except String (Nat × List Nat)
  | [] => Except.error "unexpected end of input"
  | b :: rest => Except.ok (b, rest)

/-
Iterator model.  A Rust iterator is modelled by the list of items it has yet
to produce; `next` removes the head and returns it together with the new
state, or returns none on the empty list with the state unchanged.
-/

/-- The next operation of a list-backed iterator. -/
def list_next : List α → Option α × List α
  | [] => (none, [])
  | x :: xs => (some x, xs)

/-- Collect on a list-backed iterator produces exactly its remaining items
(the behavior of collecting into a vector). -/
def list_collect (l : List α) : List α :=
  l

/-- Count on a list-backed iterator: the number of remaining items. -/
def list_count (l : List α) : Nat :=
  l.length

/-- Last on a list-backed iterator: the final remaining item, if any. -/
def list_last (l : List α) : Option α :=
  l.getLast?

/-- The size_hint of a list-backed iterator: exact bounds, as for a vector
iterator. -/
def list_size_hint (l : List α) : Nat × Option Nat :=
  (l.length, some l.length)

/-- Fuel-bounded driver that repeatedly calls list_next, listing the items
produced. -/
def list_run (fuel : Nat) (l : List α) : List α :=
  match fuel with
  | 0 => []
  | Nat.succ f =>
    match list_next l with
    | (none, _) => []
    | (some x, l2) => x :: list_run f l2

/-- The Iterator impl for Either itself (src/iterator.rs lines 204-294),
which requires both sides to have the same item type: next forwards to the
live iterator, leaving the tag unchanged. -/
def Either.next_fwd : Either (List α) (List α) → Option α × Either (List α) (List α)
  | Left l => ((list_next l).1, Left (list_next l).2)
  | Right r => ((list_next r).1, Right (list_next r).2)

/-- Either collect (src/iterator.rs lines 245-250): forwards collect to the
live iterator. -/
def Either.collect_fwd : Either (List α) (List α) → List α
  | Left l => list_collect l
  | Right r => list_collect r

/-- Fuel-bounded driver that repeatedly calls Either.next_fwd, listing the
items produced. -/
def Either.run_fwd (fuel : Nat) (it : Either (List α) (List α)) : List α :=
  match fuel with
  | 0 => []
  | Nat.succ f =>
    match Either.next_fwd it with
    | (none, _) => []
    | (some x, it2) => x :: Either.run_fwd f it2

/-- The FactoredIterator (src/iterator.rs lines 185-188):
`struct IterEither<L, R> { inner: Either<L, R> }`, wrapping one live
iterator chosen by tag at construction. -/
structure IterEither (L R : Type) where
  inner : Either L R
deriving DecidableEq, Repr

/-- Either::factor_into_iter (src/iterator.rs lines 115-123): wrap an Either
of iterables into an IterEither of their iterators (a list is its own
iterator in this model). -/
def Either.factor_into_iter (x : Either (List α) (List β)) :
    IterEither (List α) (List β) :=
  ⟨x⟩

/-- IterEither next (src/iterator.rs lines 349-351):
`Some(map_either!(self.inner, ref mut inner => inner.next()?))` — pull from
the live iterator and wrap the item in the same side tag; on exhaustion the
inner question mark propagates none and the state keeps its side. -/
def IterEither.next (it : IterEither (List α) (List β)) :
    Option (Either α β) × IterEither (List α) (List β) :=
  match it.inner with
  | Left l =>
    match list_next l with
    | (none, l2) => (none, ⟨Left l2⟩)
    | (some x, l2) => (some (Left x), ⟨Left l2⟩)
  | Right r =>
    match list_next r with
    | (none, r2) => (none, ⟨Right r2⟩)
    | (some x, r2) => (some (Right x), ⟨Right r2⟩)

/-- Fuel-bounded driver that repeatedly calls IterEither.next, listing the
items produced over the lifetime of the iterator. -/
def IterEither.run (fuel : Nat) (it : IterEither (List α) (List β)) :
    List (Either α β) :=
  match fuel with
  | 0 => []
  | Nat.succ f =>
    match IterEither.next it with
    | (none, _) => []
    | (some x, it2) => x :: IterEither.run f it2

/-- IterEither count (src/iterator.rs lines 371-373): forwards count to the
live iterator, no tag involved. -/
def IterEither.count (it : IterEither (List α) (List β)) : Nat :=
  match it.inner with
  | Left l => list_count l
  | Right r => list_count r

/-- IterEither last (src/iterator.rs lines 375-377):
`Some(map_either!(self.inner, inner => inner.last()?))` — forwards last to
the live iterator and wraps the produced item in the same side tag. -/
def IterEither.last (it : IterEither (List α) (List β)) : Option (Either α β) :=
  match it.inner with
  | Left l => (list_last l).map Left
  | Right r => (list_last r).map Right

/-- IterEither size_hint (src/iterator.rs lines 353-355): forwards size_hint
to the live iterator, no tag involved. -/
def IterEither.size_hint (it : IterEither (List α) (List β)) : Nat × Option Nat :=
  match it.inner with
  | Left l => list_size_hint l
  | Right r => list_size_hint r

/-
Helper lemmas shared by the claim theorems.
-/

/-- Running the forwarded Either iterator on a Left matches running the
wrapped list iterator directly. -/
theorem run_fwd_left_eq (fuel : Nat) (l : List α) :
    Either.run_fwd fuel (Left l) = list_run fuel l := by
  induction fuel generalizing l with
  | zero => rfl
  | succ f ih =>
    cases l with
    | nil => rfl
    | cons x xs =>
      simp [Either.run_fwd, Either.next_fwd, list_next, list_run, ih]

/-- Running the forwarded Either iterator on a Right matches running the
wrapped list iterator directly. -/
theorem run_fwd_right_eq (fuel : Nat) (r : List α) :
    Either.run_fwd fuel (Right r) = list_run fuel r := by
  induction fuel generalizing r with
  | zero => rfl
  | succ f ih =>
    cases r with
    | nil => rfl
    | cons x xs =>
      simp [Either.run_fwd, Either.next_fwd, list_next, list_run, ih]

/-- A Left-active IterEither emits exactly the wrapped items in order, each
wrapped in the Left tag, truncated by the fuel. -/
theorem iter_either_run_left (fuel : Nat) (l : List α) :
    IterEither.run fuel (⟨Left l⟩ : IterEither (List α) (List β))
      = (l.take fuel).map Left := by
  induction fuel generalizing l with
  | zero => rfl
  | succ f ih =>
    cases l with
    | nil => rfl
    | cons x xs =>
      simp [IterEither.run, IterEither.next, list_next, List.take, ih]

/-- A Right-active IterEither emits exactly the wrapped items in order, each
wrapped in the Right tag, truncated by the fuel. -/
theorem iter_either_run_right (fuel : Nat) (r : List β) :
    IterEither.run fuel (⟨Right r⟩ : IterEither (List α) (List β))
      = (r.take fuel).map Right := by
  induction fuel generalizing r with
  | zero => rfl
  | succ f ih =>
    cases r with
    | nil => rfl
    | cons x xs =>
      simp [IterEither.run, IterEither.next, list_next, List.take, ih]

/-- Every Left-wrapped item satisfies is_left. -/
theorem all_is_left_map (m : List α) :
    (m.map (Left : α → Either α β)).all Either.is_left = true := by
  induction m with
  | nil => rfl
  | cons x xs ih => simp [Either.is_left, ih]

/-- Every Right-wrapped item satisfies is_right. -/
theorem all_is_right_map (m : List β) :
    (m.map (Right : β → Either α β)).all Either.is_right = true := by
  induction m with
  | nil => rfl
  | cons x xs ih => simp [Either.is_right, Either.is_left, ih]

/-- On a tag byte 0 the deserializer dispatches to the Left payload decoder
and wraps its result in Left. -/
theorem deserialize_dispatch_left
    (desL : List Nat → Except String (L × List Nat))
    (desR : List Nat → Except String (R × List Nat)) (rest : List Nat) :
    Either.deserialize_reader desL desR (0 :: rest)
      = (desL rest).map (fun p => (Left p.1, p.2)) := by
  cases h : desL rest with
  | error e => simp [Either.deserialize_reader, deserialize_bool, h, Except.map]
  | ok p => simp [Either.deserialize_reader, deserialize_bool, h, Except.map]

/-- On a tag byte 1 the deserializer dispatches to the Right payload decoder
and wraps its result in Right. -/
theorem deserialize_dispatch_right
    (desL : List Nat → Except String (L × List Nat))
    (desR : List Nat → Except String (R × List Nat)) (rest : List Nat) :
    Either.deserialize_reader desL desR (1 :: rest)
      = (desR rest).map (fun p => (Right p.1, p.2)) := by
  cases h : desR rest with
  | error e => simp [Either.deserialize_reader, deserialize_bool, h, Except.map]
  | ok p => simp [Either.deserialize_reader, deserialize_bool, h, Except.map]

/-- On a tag byte that encodes neither false nor true the deserializer
reports the invalid-bool error of the tag decoder. -/
theorem deserialize_bad_tag
    (desL : List Nat → Except String (L × List Nat))
    (desR : List Nat → Except String (R × List Nat))
    (b : Nat) (rest : List Nat) (hb0 : b ≠ 0) (hb1 : b ≠ 1) :
    Either.deserialize_reader desL desR (b :: rest)
      = Except.error "Invalid bool representation" := by
  simp [Either.deserialize_reader, deserialize_bool, hb0, hb1]

/-
Claim theorems.
-/

/-- Claim C5: for the derived ordering on Either, Left(a) is less than
Right(b) for all payloads a and b regardless of how the payloads compare,
and two values with the same tag compare exactly as their payloads compare
under the payload ordering. -/
theorem derived_ord_spec (L R : Type)
    (cmpL : L → L → Ordering) (cmpR : R → R → Ordering) :
    (∀ (a : L) (b : R),
      Either.lt cmpL cmpR (Left a) (Right b) = true) ∧
    (∀ (a : L) (b : R),
      Either.cmp cmpL cmpR (Left a) (Right b) = Ordering.lt) ∧
    (∀ (a : L) (b : R),
      Either.cmp cmpL cmpR (Right b) (Left a) = Ordering.gt) ∧
    (∀ a b : L, Either.cmp cmpL cmpR (Left a) (Left b) = cmpL a b) ∧
    (∀ a b : R, Either.cmp cmpL cmpR (Right a) (Right b) = cmpR a b) :=
  ⟨fun _ _ => rfl, fun _ _ => rfl, fun _ _ => rfl, fun _ _ => rfl,
    fun _ _ => rfl⟩

/-- Claim C6: the Result conversions have fixed polarity in both directions:
from_result maps Err(e) to Left(e) and Ok(o) to Right(o), and into_result
maps Left(l) to Err(l) and Right(r) to Ok(r). -/
theorem result_conversion_spec (L R : Type) :
    (∀ e : L, Either.from_result (Result.Err e : Result R L) = Left e) ∧
    (∀ o : R, Either.from_result (Result.Ok o : Result R L) = Right o) ∧
    (∀ l : L, Either.into_result (Left l : Either L R) = Result.Err l) ∧
    (∀ r : R, Either.into_result (Right r : Either L R) = Result.Ok r) :=
  ⟨fun _ => rfl, fun _ => rfl, fun _ => rfl, fun _ => rfl⟩

/-- Claim C7: the eliminator applies f to a Left payload and g to a Right
payload, and only one of the two functions matters per call: the result on a
Left does not depend on g, and the result on a Right does not depend on f. -/
theorem either_eliminator_spec (L R T : Type) :
    (∀ (v : L) (f : L → T) (g : R → T),
      (Left v : Either L R).either f g = f v) ∧
    (∀ (v : R) (f : L → T) (g : R → T),
      (Right v : Either L R).either f g = g v) ∧
    (∀ (v : L) (f : L → T) (g g2 : R → T),
      (Left v : Either L R).either f g = (Left v : Either L R).either f g2) ∧
    (∀ (v : R) (f f2 : L → T) (g : R → T),
      (Right v : Either L R).either f g = (Right v : Either L R).either f2 g) :=
  ⟨fun _ _ _ => rfl, fun _ _ _ => rfl, fun _ _ _ _ => rfl,
    fun _ _ _ _ => rfl⟩

/-- Claim C8: map_left transforms only a Left payload and map_right only a
Right payload, each preserving the tag, and in each call only the matching
closure matters: the result on the non-matching side does not depend on the
supplied function. -/
theorem map_left_right_spec (L R M S : Type) :
    (∀ (v : L) (f : L → M), (Left v : Either L R).map_left f = Left (f v)) ∧
    (∀ (v : R) (f : L → M), (Right v : Either L R).map_left f = Right v) ∧
    (∀ (v : R) (f : R → S), (Right v : Either L R).map_right f = Right (f v)) ∧
    (∀ (v : L) (f : R → S), (Left v : Either L R).map_right f = Left v) ∧
    (∀ (v : R) (f f2 : L → M),
      (Right v : Either L R).map_left f = (Right v : Either L R).map_left f2) ∧
    (∀ (v : L) (f f2 : R → S),
      (Left v : Either L R).map_right f = (Left v : Either L R).map_right f2) :=
  ⟨fun _ _ => rfl, fun _ _ => rfl, fun _ _ => rfl, fun _ _ => rfl,
    fun _ _ _ => rfl, fun _ _ _ => rfl⟩

/-- Claim C9: flip swaps the two sides without changing the payload value,
and flip is an involution. -/
theorem flip_spec (L R : Type) :
    (∀ v : L, (Left v : Either L R).flip = Right v) ∧
    (∀ v : R, (Right v : Either L R).flip = Left v) ∧
    (∀ x : Either L R, x.flip.flip = x) := by
  refine ⟨fun _ => rfl, fun _ => rfl, fun x => ?_⟩
  cases x <;> rfl

/-- Claim C2: IterEither next pulls from the single live wrapped iterator: a
yielded value comes back wrapped in the same tag with the side unchanged, an
exhausted iterator gives none without switching sides, and over the whole
lifetime a Left-built FactoredIterator emits only Left-tagged items, in the
order of the wrapped iterator (symmetrically for Right). -/
theorem iter_either_next_spec (α β : Type) :
    (∀ (v : α) (l : List α),
      IterEither.next (⟨Left (v :: l)⟩ : IterEither (List α) (List β))
        = (some (Left v), ⟨Left l⟩)) ∧
    (IterEither.next (⟨Left []⟩ : IterEither (List α) (List β))
        = (none, ⟨Left []⟩)) ∧
    (∀ (v : β) (r : List β),
      IterEither.next (⟨Right (v :: r)⟩ : IterEither (List α) (List β))
        = (some (Right v), ⟨Right r⟩)) ∧
    (IterEither.next (⟨Right []⟩ : IterEither (List α) (List β))
        = (none, ⟨Right []⟩)) ∧
    (∀ (fuel : Nat) (l : List α),
      IterEither.run fuel (Either.factor_into_iter (Left l : Either (List α) (List β)))
        = (l.take fuel).map Left) ∧
    (∀ (fuel : Nat) (l : List α),
      (IterEither.run fuel (⟨Left l⟩ : IterEither (List α) (List β))).all
        Either.is_left = true) ∧
    (∀ (fuel : Nat) (r : List β),
      (IterEither.run fuel (⟨Right r⟩ : IterEither (List α) (List β))).all
        Either.is_right = true) := by
  refine ⟨fun _ _ => rfl, rfl, fun _ _ => rfl, rfl, ?_, ?_, ?_⟩
  · intro fuel l
    exact iter_either_run_left fuel l
  · intro fuel l
    rw [iter_either_run_left]
    exact all_is_left_map _
  · intro fuel r
    rw [iter_either_run_right]
    exact all_is_right_map _

/-- Claim C3 counterexample: last on a FactoredIterator does wrap the
produced item in the side tag.  Two FactoredIterators wrapping the identical
list iterator [1] give different results depending only on the side, and the
Left-active result is the tag-wrapped item some (Left 1), not the bare item
some 1 that the wrapped iterator itself returns — refuting the claim that
last forwards without tag-wrapping. -/
theorem iter_either_last_wraps_tag :
    IterEither.last (⟨Left [1]⟩ : IterEither (List Nat) (List Nat))
      = some (Left 1) ∧
    IterEither.last (⟨Right [1]⟩ : IterEither (List Nat) (List Nat))
      = some (Right 1) ∧
    (some (Left 1) : Option (Either Nat Nat)) ≠ some (Right 1) ∧
    list_last [1] = some 1 :=
  ⟨rfl, rfl, by decide, rfl⟩

/-- Claim C3 as amended: count and size_hint forward directly to the live
wrapped iterator and return exactly what it returns, while last forwards to
the live wrapped iterator and wraps the produced item, if any, in the same
side tag. -/
theorem iter_either_count_last_size_hint_spec (α β : Type) :
    (∀ l : List α,
      IterEither.count (⟨Left l⟩ : IterEither (List α) (List β)) = list_count l) ∧
    (∀ r : List β,
      IterEither.count (⟨Right r⟩ : IterEither (List α) (List β)) = list_count r) ∧
    (∀ l : List α,
      IterEither.size_hint (⟨Left l⟩ : IterEither (List α) (List β))
        = list_size_hint l) ∧
    (∀ r : List β,
      IterEither.size_hint (⟨Right r⟩ : IterEither (List α) (List β))
        = list_size_hint r) ∧
    (∀ l : List α,
      IterEither.last (⟨Left l⟩ : IterEither (List α) (List β))
        = (list_last l).map Left) ∧
    (∀ r : List β,
      IterEither.last (⟨Right r⟩ : IterEither (List α) (List β))
        = (list_last r).map Right) :=
  ⟨fun _ => rfl, fun _ => rfl, fun _ => rfl, fun _ => rfl, fun _ => rfl,
    fun _ => rfl⟩

/-- Claim C4: the forwarded Iterator impl on Either (both sides sharing one
item type) is behavior-preserving: collect on Left(it) and on Right(it)
equals collect run directly on it, next touches only the live payload and
keeps the tag, and driving the forwarded iterator step by step produces the
same item sequence as driving the wrapped iterator directly. -/
theorem either_iterator_delegation_spec (α : Type) :
    (∀ it : List α, Either.collect_fwd (Left it) = list_collect it) ∧
    (∀ it : List α, Either.collect_fwd (Right it) = list_collect it) ∧
    (∀ it : List α,
      Either.next_fwd (Left it) = ((list_next it).1, Left (list_next it).2)) ∧
    (∀ it : List α,
      Either.next_fwd (Right it) = ((list_next it).1, Right (list_next it).2)) ∧
    (∀ (fuel : Nat) (it : List α),
      Either.run_fwd fuel (Left it) = list_run fuel it) ∧
    (∀ (fuel : Nat) (it : List α),
      Either.run_fwd fuel (Right it) = list_run fuel it) :=
  ⟨fun _ => rfl, fun _ => rfl, fun _ => rfl, fun _ => rfl,
    fun fuel it => run_fwd_left_eq fuel it, fun fuel it => run_fwd_right_eq fuel it⟩

/-- Claim C1: for payload codecs that are themselves round-trip exact, the
encoding of an Either is a one-byte tag (0 for Left, 1 for Right) followed by
the encoding of the live payload, decoding reads the tag byte first and
dispatches to the matching payload decoder, and decode after encode
reproduces the tag and payload exactly. -/
theorem codec_round_trip_spec (L R : Type)
    (serL : L → List Nat) (serR : R → List Nat)
    (desL : List Nat → Except String (L × List Nat))
    (desR : List Nat → Except String (R × List Nat))
    (hL : ∀ (l : L) (rest : List Nat), desL (serL l ++ rest) = Except.ok (l, rest))
    (hR : ∀ (r : R) (rest : List Nat), desR (serR r ++ rest) = Except.ok (r, rest)) :
    (∀ l : L, Either.serialize serL serR (Left l) = 0 :: serL l) ∧
    (∀ r : R, Either.serialize serL serR (Right r) = 1 :: serR r) ∧
    (∀ rest : List Nat, Either.deserialize_reader desL desR (0 :: rest)
        = (desL rest).map (fun p => (Left p.1, p.2))) ∧
    (∀ rest : List Nat, Either.deserialize_reader desL desR (1 :: rest)
        = (desR rest).map (fun p => (Right p.1, p.2))) ∧
    (∀ (x : Either L R) (rest : List Nat),
      Either.deserialize_reader desL desR (Either.serialize serL serR x ++ rest)
        = Except.ok (x, rest)) := by
  refine ⟨fun _ => rfl, fun _ => rfl,
    fun rest => deserialize_dispatch_left desL desR rest,
    fun rest => deserialize_dispatch_right desL desR rest, ?_⟩
  intro x rest
  cases x with
  | Left l =>
    simp [Either.serialize, serialize_bool, Either.deserialize_reader,
      deserialize_bool, hL]
  | Right r =>
    simp [Either.serialize, serialize_bool, Either.deserialize_reader,
      deserialize_bool, hR]

/-- Claim C1 witness: with the concrete Nat codec, Left 42 and Right 1234567
both round-trip through serialize and deserialize. -/
theorem codec_round_trip_witness :
    Either.deserialize_reader des_nat des_nat
        (Either.serialize ser_nat ser_nat (Left 42 : Either Nat Nat) ++ [])
      = Except.ok ((Left 42 : Either Nat Nat), []) ∧
    Either.deserialize_reader des_nat des_nat
        (Either.serialize ser_nat ser_nat (Right 1234567 : Either Nat Nat) ++ [])
      = Except.ok ((Right 1234567 : Either Nat Nat), []) := by
  have h := codec_round_trip_spec Nat Nat ser_nat ser_nat des_nat des_nat
    (fun _ _ => rfl) (fun _ _ => rfl)
  exact ⟨h.2.2.2.2 (Left 42) [], h.2.2.2.2 (Right 1234567) []⟩

/-- Claim C10: deserialization produces a Left exactly when the tag byte is
the encoding of false (0) and a Right exactly when it is the encoding of
true (1); any input whose first byte is neither returns an error and no sum
value is produced. -/
theorem decode_rejects_bad_tag (L R : Type)
    (desL : List Nat → Except String (L × List Nat))
    (desR : List Nat → Except String (R × List Nat)) :
    (∀ (rest : List Nat) (l : L) (rem : List Nat),
      desL rest = Except.ok (l, rem) →
      Either.deserialize_reader desL desR (0 :: rest) = Except.ok (Left l, rem)) ∧
    (∀ (rest : List Nat) (r : R) (rem : List Nat),
      desR rest = Except.ok (r, rem) →
      Either.deserialize_reader desL desR (1 :: rest) = Except.ok (Right r, rem)) ∧
    (∀ (b : Nat) (rest : List Nat), b ≠ 0 → b ≠ 1 →
      Either.deserialize_reader desL desR (b :: rest)
        = Except.error "Invalid bool representation") ∧
    (∀ (input : List Nat) (x : Either L R) (rem : List Nat),
      Either.deserialize_reader desL desR input = Except.ok (x, rem) →
      (x.is_left = true → input.head? = some 0) ∧
      (x.is_right = true → input.head? = some 1)) := by
  refine ⟨?_, ?_, ?_, ?_⟩
  · intro rest l rem h
    rw [deserialize_dispatch_left desL desR rest, h]
    rfl
  · intro rest r rem h
    rw [deserialize_dispatch_right desL desR rest, h]
    rfl
  · intro b rest hb0 hb1
    exact deserialize_bad_tag desL desR b rest hb0 hb1
  · intro input x rem h
    cases input with
    | nil => simp [Either.deserialize_reader, deserialize_bool] at h
    | cons b rest =>
      by_cases hb0 : b = 0
      · subst hb0
        rw [deserialize_dispatch_left desL desR rest] at h
        cases hd : desL rest with
        | error e => rw [hd] at h; exact absurd h (by simp [Except.map])
        | ok p =>
          rw [hd] at h
          simp only [Except.map, Except.ok.injEq, Prod.mk.injEq] at h
          constructor
          · intro _
            rfl
          · intro hx
            rw [← h.1] at hx
            simp [Either.is_right, Either.is_left] at hx
      · by_cases hb1 : b = 1
        · subst hb1
          rw [deserialize_dispatch_right desL desR rest] at h
          cases hd : desR rest with
          | error e => rw [hd] at h; exact absurd h (by simp [Except.map])
          | ok p =>
            rw [hd] at h
            simp only [Except.map, Except.ok.injEq, Prod.mk.injEq] at h
            constructor
            · intro hx
              rw [← h.1] at hx
              simp [Either.is_left] at hx
            · intro _
              rfl
        · rw [deserialize_bad_tag desL desR b rest hb0 hb1] at h
          exact absurd h (by simp)

/-- Claim C10 witness: with the concrete Nat payload decoder, an input whose
first byte is 7 (neither 0 nor 1) is rejected with an error. -/
theorem decode_rejects_bad_tag_witness :
    (7 : Nat) ≠ 0 ∧ (7 : Nat) ≠ 1 ∧
    Either.deserialize_reader des_nat des_nat (7 :: [3])
      = (Except.error "Invalid bool representation"
          : Except String (Either Nat Nat × List Nat)) := by
  have h := decode_rejects_bad_tag Nat Nat des_nat des_nat
  exact ⟨by decide, by decide, h.2.2.1 7 [3] (by decide) (by decide)⟩

end EitherSpec
